import Mathlib

/-
Verification of the rule-based loan-underwriting reward engine
(`trinity/plugins/loan_rewards.py`, class `LoanUnderwritingReward`).

Shallow-embedding conventions:
- Python/JSON values are modeled by `JVal`.  Python numbers (int and float
  alike) are modeled as exact rationals (ℚ); the engine's thresholds and
  weights are plain decimal constants, which ℚ represents exactly.
- Python exceptions are modeled by `Except PyErr`.  The distinction between
  `json.JSONDecodeError` (a parse failure, caught by the top-level handler)
  and a generic `ValueError` (not caught there) is kept, because the source's
  `except (json.JSONDecodeError, KeyError, TypeError)` clause distinguishes
  them.
- `random.uniform(-0.02, 0.02)` is modeled by an explicit `noise` parameter
  threaded into `callScore`; it is used exactly where the source draws the
  noise (after band mapping, before clamping).
- `json.loads` and the two `re.sub` fence-stripping calls are Python stdlib
  behaviour, not code of this repository; they are modeled from the spec
  (§4.1) by `jsonLoads` and `stripFences` below.
-/

namespace Loan

/-- Python exception classes that the engine can raise or catch. -/
inductive PyErr where
  | valueError
  | typeError
  | keyError
  | zeroDivisionError
  | jsonDecodeError
  | attributeError
  | unboundLocalError
deriving DecidableEq, Repr

/-- A Python/JSON value.  `jnum` covers both Python `int` and `float`
(modeled as exact rationals); `jobj` is an association list with the keys
in insertion order (all envelopes used below have distinct keys, matching
Python `dict` semantics). -/
inductive JVal where
  | jnum : ℚ → JVal
  | jstr : String → JVal
  | jbool : Bool → JVal
  | jnull : JVal
  | jarr : List JVal → JVal
  | jobj : List (String × JVal) → JVal

/-- The argument of `LoanUnderwritingReward.__call__`: either raw text
(to be fence-stripped and JSON-parsed) or an already-structured object. -/
inductive RespInput where
  | text : String → RespInput
  | data : JVal → RespInput

/-- The value returned by `__call__`: a bare scalar reward, or (for
`return_dict=True`) a string-keyed mapping of rationals. -/
inductive ScoreResult where
  | scalar : ℚ → ScoreResult
  | breakdown : List (String × ℚ) → ScoreResult
deriving DecidableEq, Repr

/-! ### Character/string helpers (Python `in` on strings, fence stripping) -/

/-- `charsStart needle hay` : does `hay` start with `needle`? -/
def charsStart : List Char → List Char → Bool
  | [], _ => true
  | _ :: _, [] => false
  | c :: cs, h :: hs => c == h && charsStart cs hs

/-- `charsSub needle hay` : does `needle` occur as a contiguous run in `hay`?
Models Python's `needle in hay` on strings. -/
def charsSub (needle : List Char) : List Char → Bool
  | [] => needle.isEmpty
  | h :: hs => charsStart needle (h :: hs) || charsSub needle hs

/-- Python `needle in hay` for strings (substring test). -/
def strContains (hay needle : String) : Bool :=
  charsSub needle.toList hay.toList

/-- Drop leading whitespace characters (`\s*` after a fence marker). -/
def dropLeadingWs : List Char → List Char
  | [] => []
  | c :: cs => if c.isWhitespace then dropLeadingWs cs else c :: cs

/-- Strip whitespace from both ends (Python `str.strip()`, as applied by
`float()`/`int()` to string arguments). -/
def trimChars (cs : List Char) : List Char :=
  dropLeadingWs (dropLeadingWs cs.reverse).reverse

def jsonFenceChars : List Char := "```json".toList

def fenceChars : List Char := "```".toList

/-- Modelled from the spec (§4.1): the source's
`re.sub(r'```json\s*', '', response)` — remove every occurrence of a
"```json" marker together with the whitespace that follows it.  Fuel-based
recursion (the fuel `cs.length` is ample: every step consumes at least one
character). -/
def removeJsonFencesAux : Nat → List Char → List Char
  | 0, cs => cs
  | _ + 1, [] => []
  | fuel + 1, c :: rest =>
    if charsStart jsonFenceChars (c :: rest) then
      removeJsonFencesAux fuel (dropLeadingWs ((c :: rest).drop jsonFenceChars.length))
    else
      c :: removeJsonFencesAux fuel rest

def removeJsonFences (cs : List Char) : List Char :=
  removeJsonFencesAux cs.length cs

/-- Modelled from the spec (§4.1): the source's
`re.sub(r'```\s*$', '', response)` — remove a trailing "```" marker
followed only by whitespace, if present. -/
def stripTrailingFence (cs : List Char) : List Char :=
  let r := dropLeadingWs cs.reverse
  if charsStart fenceChars.reverse r then
    (r.drop fenceChars.length).reverse
  else
    cs

/-- The markdown-fence stripping applied by `__call__` to string input. -/
def stripFences (s : String) : String :=
  String.mk (stripTrailingFence (removeJsonFences s.toList))

/-! ### Numeric coercions (Python `float()` / `int()`) -/

def digitsVal (cs : List Char) : ℕ :=
  cs.foldl (fun a c => 10 * a + (c.toNat - 48)) 0

/-- Modelled from the spec: Python `float()` applied to a string — accepts
plain decimal literals (optional sign, digits, optional fractional part),
with surrounding whitespace stripped.  Exponents, `inf` and `nan` are not
modeled; no input used below needs them. -/
def strToRat (s : String) : Option ℚ :=
  let cs := trimChars s.toList
  let (sign, body) : ℚ × List Char :=
    match cs with
    | '-' :: rest => (-1, rest)
    | '+' :: rest => (1, rest)
    | _ => (1, cs)
  match body.splitOn '.' with
  | [ip] =>
    if ip ≠ [] ∧ ip.all Char.isDigit then
      some (sign * (digitsVal ip : ℚ))
    else none
  | [ip, fp] =>
    if (ip ≠ [] ∨ fp ≠ []) ∧ ip.all Char.isDigit ∧ fp.all Char.isDigit then
      some (sign * ((digitsVal ip : ℚ) + (digitsVal fp : ℚ) / (10 : ℚ) ^ fp.length))
    else none
  | _ => none

/-- Modelled from the spec: Python `int()` applied to a string — accepts
integer literals with an optional sign, with surrounding whitespace
stripped. -/
def strToInt (s : String) : Option Int :=
  let cs := trimChars s.toList
  match cs with
  | '-' :: rest =>
    if rest ≠ [] ∧ rest.all Char.isDigit then some (-(digitsVal rest : Int)) else none
  | '+' :: rest =>
    if rest ≠ [] ∧ rest.all Char.isDigit then some (digitsVal rest : Int) else none
  | _ =>
    if cs ≠ [] ∧ cs.all Char.isDigit then some (digitsVal cs : Int) else none

/-- Truncation toward zero, as Python `int()` applied to a float. -/
def ratTrunc (q : ℚ) : Int :=
  if 0 ≤ q.num then (q.num.toNat / q.den : ℕ) else -((((-q.num).toNat / q.den : ℕ) : Int))

/-! ### JSON parsing (Python `json.loads`, modeled from the spec §4.1) -/

def escChar (c : Char) : Char :=
  if c == 'n' then '\n' else if c == 't' then '\t' else if c == 'r' then '\r' else c

/-- Parse the remainder of a JSON string literal (after the opening quote),
returning the characters and the rest of the input.  Escape handling covers
the escapes used in practice (`\"`, `\\`, `\/`, `\n`, `\t`, `\r`). -/
def parseJstrChars : List Char → Option (List Char × List Char)
  | [] => none
  | '"' :: rest => some ([], rest)
  | '\\' :: rest =>
    match rest with
    | [] => none
    | c :: rest2 => (parseJstrChars rest2).map (fun p => (escChar c :: p.1, p.2))
  | c :: rest => (parseJstrChars rest).map (fun p => (c :: p.1, p.2))

def isNumChar (c : Char) : Bool :=
  c.isDigit || c == '-' || c == '+' || c == '.'

mutual

/-- Modelled from the spec (§4.1): Python `json.loads` on the standard JSON
grammar (objects, arrays, strings, plain decimal numbers, `true`, `false`,
`null`).  Fuel-based recursive descent. -/
def parseJson : Nat → List Char → Option (JVal × List Char)
  | 0, _ => none
  | fuel + 1, cs =>
    let cs := dropLeadingWs cs
    match cs with
    | '"' :: rest => (parseJstrChars rest).map (fun p => (JVal.jstr (String.mk p.1), p.2))
    | '[' :: rest =>
      let rest := dropLeadingWs rest
      (match rest with
       | ']' :: rest2 => some (JVal.jarr [], rest2)
       | _ => (parseItems fuel rest).map (fun p => (JVal.jarr p.1, p.2)))
    | '{' :: rest =>
      let rest := dropLeadingWs rest
      (match rest with
       | '}' :: rest2 => some (JVal.jobj [], rest2)
       | _ => (parseFields fuel rest).map (fun p => (JVal.jobj p.1, p.2)))
    | _ =>
      if charsStart "true".toList cs then some (JVal.jbool true, cs.drop 4)
      else if charsStart "false".toList cs then some (JVal.jbool false, cs.drop 5)
      else if charsStart "null".toList cs then some (JVal.jnull, cs.drop 4)
      else
        let numChars := cs.takeWhile isNumChar
        match strToRat (String.mk numChars) with
        | some q => some (JVal.jnum q, cs.drop numChars.length)
        | none => none

/-- One or more comma-separated JSON values, then `]`. -/
def parseItems : Nat → List Char → Option (List JVal × List Char)
  | 0, _ => none
  | fuel + 1, cs =>
    match parseJson fuel cs with
    | none => none
    | some (v, rest) =>
      let rest := dropLeadingWs rest
      match rest with
      | ']' :: rest2 => some ([v], rest2)
      | ',' :: rest2 =>
        (parseItems fuel rest2).map (fun p => (v :: p.1, p.2))
      | _ => none

/-- One or more comma-separated `"key": value` pairs, then `}`. -/
def parseFields : Nat → List Char → Option (List (String × JVal) × List Char)
  | 0, _ => none
  | fuel + 1, cs =>
    let cs := dropLeadingWs cs
    match cs with
    | '"' :: rest =>
      (match parseJstrChars rest with
       | none => none
       | some (key, rest2) =>
         let rest2 := dropLeadingWs rest2
         match rest2 with
         | ':' :: rest3 =>
           (match parseJson fuel rest3 with
            | none => none
            | some (v, rest4) =>
              let rest4 := dropLeadingWs rest4
              match rest4 with
              | '}' :: rest5 => some ([(String.mk key, v)], rest5)
              | ',' :: rest5 =>
                (parseFields fuel rest5).map (fun p => ((String.mk key, v) :: p.1, p.2))
              | _ => none)
         | _ => none)
    | _ => none

end

/-- `json.loads`: parse a full JSON document; anything else raises
`json.JSONDecodeError`. -/
def jsonLoads (s : String) : Except PyErr JVal :=
  let cs := s.toList
  match parseJson (2 * cs.length + 8) cs with
  | some (v, rest) =>
    if (dropLeadingWs rest).isEmpty then .ok v else .error .jsonDecodeError
  | none => .error .jsonDecodeError

/-! ### Python primitive operations on `JVal` -/

/-- Python `value == "s"` where `"s"` is a string literal: only equal
strings compare equal; values of other types compare unequal, silently. -/
def jvalEqStr (v : JVal) (s : String) : Bool :=
  match v with
  | .jstr t => t == s
  | _ => false

/-- Python `isinstance(v, (int, float))`.  A Python `bool` is a subclass of
`int`, so it passes the check. -/
def isNumeric : JVal → Bool
  | .jnum _ => true
  | .jbool _ => true
  | _ => false

/-- Python `isinstance(v, dict)`. -/
def isDict : JVal → Bool
  | .jobj _ => true
  | _ => false

/-- The numeric value of a value that passed `isNumeric`. -/
def numVal : JVal → ℚ
  | .jnum q => q
  | .jbool b => if b then 1 else 0
  | _ => 0

/-- Python `int(v)` for a value that passed `isNumeric` (truncation). -/
def truncOfNum : JVal → Int
  | .jnum q => ratTrunc q
  | .jbool b => if b then 1 else 0
  | _ => 0

/-- Python `key in container`.  Dicts test key membership; lists test
element equality against the string; strings test substring; other types
raise `TypeError` ("argument of type ... is not iterable"). -/
def pyContains (container : JVal) (key : String) : Except PyErr Bool :=
  match container with
  | .jobj l => .ok (l.lookup key).isSome
  | .jarr l => .ok (l.any (fun v => jvalEqStr v key))
  | .jstr s => .ok (strContains s key)
  | _ => .error .typeError

/-- Python `o.get(key, default)`.  Only dicts have `.get`; on any other
value the attribute lookup raises `AttributeError`. -/
def pyGet (o : JVal) (key : String) (default : JVal) : Except PyErr JVal :=
  match o with
  | .jobj l => .ok ((l.lookup key).getD default)
  | _ => .error .attributeError

/-- Python `o[key]` with a string key.  A dict raises `KeyError` when the
key is missing; lists/strings/others raise `TypeError` for string indices. -/
def pyIndex (o : JVal) (key : String) : Except PyErr JVal :=
  match o with
  | .jobj l =>
    match l.lookup key with
    | some v => .ok v
    | none => .error .keyError
  | _ => .error .typeError

/-- Python `o.items()`: only dicts have `.items`. -/
def pyItems : JVal → Except PyErr (List (String × JVal))
  | .jobj l => .ok l
  | _ => .error .attributeError

/-- Python `float(v)`: numbers pass through, bools become 0/1, strings are
parsed (`ValueError` on failure), anything else raises `TypeError`. -/
def pyFloat (v : JVal) : Except PyErr ℚ :=
  match v with
  | .jnum q => .ok q
  | .jbool b => .ok (if b then 1 else 0)
  | .jstr s =>
    match strToRat s with
    | some q => .ok q
    | none => .error .valueError
  | _ => .error .typeError

/-- Python `int(v)`: numbers truncate toward zero, strings must be integer
literals (`ValueError` otherwise), anything else raises `TypeError`. -/
def pyInt (v : JVal) : Except PyErr Int :=
  match v with
  | .jnum q => .ok (ratTrunc q)
  | .jbool b => .ok (if b then 1 else 0)
  | .jstr s =>
    match strToInt s with
    | some n => .ok n
    | none => .error .valueError
  | _ => .error .typeError

/-- Python `v.lower()`: only strings have `.lower`; other values raise
`AttributeError`. -/
def pyLower (v : JVal) : Except PyErr String :=
  match v with
  | .jstr s => .ok s.toLower
  | _ => .error .attributeError

/-- Python `v.upper()`: only strings have `.upper`. -/
def pyUpper (v : JVal) : Except PyErr String :=
  match v with
  | .jstr s => .ok s.toUpper
  | _ => .error .attributeError

/-- Python `v < n` where `n` is a number: numeric comparison, `TypeError`
for non-numeric `v` (e.g. a string compared with an int). -/
def pyLtNum (v : JVal) (n : ℚ) : Except PyErr Bool :=
  match v with
  | .jnum q => .ok (decide (q < n))
  | .jbool b => .ok (decide ((if b then (1 : ℚ) else 0) < n))
  | _ => .error .typeError

/-- Python `str(v)` as used in `_assess_risk_evaluation`'s risk-factor
substring checks.  Strings pass through; the renderings of the other types
are abbreviated (no rendering of a non-string contains "dti" or "credit",
which is all the engine inspects). -/
def pyStrOf : JVal → String
  | .jstr s => s
  | .jbool b => if b then "True" else "False"
  | .jnull => "None"
  | .jnum q => if q.den = 1 then toString q.num else toString q.num ++ "." ++ toString q.den
  | .jarr _ => "[...]"
  | .jobj _ => "\x7b...\x7d"

/-- `float(o.get(key, 0))`. -/
def pyGetFloat (o : JVal) (key : String) : Except PyErr ℚ :=
  (pyGet o key (.jnum 0)).bind pyFloat

/-- `int(o.get(key, 0))`. -/
def pyGetInt (o : JVal) (key : String) : Except PyErr Int :=
  (pyGet o key (.jnum 0)).bind pyInt

/-- `o.get(key, "").lower()`. -/
def pyGetLower (o : JVal) (key : String) : Except PyErr String :=
  (pyGet o key (.jstr "")).bind pyLower

/-- `o.get(key, "").upper()`. -/
def pyGetUpper (o : JVal) (key : String) : Except PyErr String :=
  (pyGet o key (.jstr "")).bind pyUpper

/-- Tag an exception with the accumulated score at the point it is raised:
inside a `try` block whose handler falls through to `return min(score, 1.0)`,
the partial score survives the exception. -/
def tryQ (s : ℚ) : Except PyErr α → Except (PyErr × ℚ) α
  | .ok a => .ok a
  | .error e => .error (e, s)

/-! ### `_check_structure` -/

/-- The `for agent in required_agents` loop of `_check_structure`:
`+0.13` for each agent key that is present and mapping-shaped. -/
def agentPresenceScore (agents : JVal) : List String → Except PyErr ℚ
  | [] => .ok 0
  | a :: rest => do
    let has ← pyContains agents a
    let inc ←
      if has then do
        let v ← pyIndex agents a
        pure (if isDict v then (0.13 : ℚ) else 0)
      else
        pure 0
    let tail ← agentPresenceScore agents rest
    pure (inc + tail)

/-- Python `all(field in o for field in fields)` (short-circuiting). -/
def allFieldsIn (o : JVal) : List String → Except PyErr Bool
  | [] => .ok true
  | f :: rest => do
    let h ← pyContains o f
    if h then allFieldsIn o rest else pure false

/-- The body of `_check_structure` before the final `min(score, 1.0)`. -/
def checkStructureTotal (responseData : JVal) : Except PyErr ℚ := do
  let c1 ← pyContains responseData "agent_outputs"
  let c2 ← pyContains responseData "decision"
  let c3 ← pyContains responseData "trajectory_id"
  let sTop : ℚ :=
    (if c1 then (0.2 : ℚ) else 0) + (if c2 then 0.2 else 0) + (if c3 then 0.2 else 0)
  let agents ← pyGet responseData "agent_outputs" (.jobj [])
  let sAgents ← agentPresenceScore agents ["loan_officer", "credit_analyst", "risk_manager"]
  let hasLo ← pyContains agents "loan_officer"
  let sLo ←
    if hasLo then do
      let lo ← pyIndex agents "loan_officer"
      let ok ← allFieldsIn lo ["monthly_income", "monthly_debts", "loan_amount"]
      pure (if ok then (0.1 : ℚ) else 0)
    else pure 0
  let hasCa ← pyContains agents "credit_analyst"
  let sCa ←
    if hasCa then do
      let ca ← pyIndex agents "credit_analyst"
      let ok ← allFieldsIn ca ["dti_ratio", "credit_score", "risk_assessment"]
      pure (if ok then (0.1 : ℚ) else 0)
    else pure 0
  let hasRm ← pyContains agents "risk_manager"
  let sRm ←
    if hasRm then do
      let rm ← pyIndex agents "risk_manager"
      let ok ← allFieldsIn rm ["decision", "interest_rate"]
      pure (if ok then (0.1 : ℚ) else 0)
    else pure 0
  pure (sTop + sAgents + sLo + sCa + sRm)

/-- `_check_structure`: additive structure score, capped at 1.0. -/
def checkStructure (responseData : JVal) : Except PyErr ℚ :=
  (checkStructureTotal responseData).map (fun t => min t 1)

/-! ### `_verify_calculations` -/

/-- The DTI tolerance ladder of `_verify_calculations`:
`< 0.05 → +0.5`, `< 0.1 → +0.3`, else `+0.1` if a positive DTI was at
least reported. -/
def dtiIncrement (reportedDti expectedDti : ℚ) : ℚ :=
  if |reportedDti - expectedDti| < 0.05 then 0.5
  else if |reportedDti - expectedDti| < 0.1 then 0.3
  else if reportedDti > 0 then 0.1
  else 0

/-- The interest-rate/risk-tier coherence ladder of `_verify_calculations`. -/
def rateIncrement (riskAssessment : String) (rateAnnual : ℚ) : ℚ :=
  if riskAssessment = "low" ∧ 5 ≤ rateAnnual ∧ rateAnnual ≤ 8 then 0.25
  else if riskAssessment = "medium" ∧ 8 ≤ rateAnnual ∧ rateAnnual ≤ 12 then 0.25
  else if riskAssessment = "high" ∧ 12 ≤ rateAnnual ∧ rateAnnual ≤ 18 then 0.25
  else if rateAnnual > 0 then 0.1
  else 0

/-- The `try` body of `_verify_calculations`.  Errors carry the score
accumulated before the raise (the `except` clause falls through to
`return min(score, 1.0)`).  `monthly_payment` is a Python local that is
only assigned inside the `if interest_rate > 0 and term_months > 0`
branch; referencing it unassigned raises `UnboundLocalError`. -/
def verifyCalcTry (loanOfficer creditAnalyst riskManager : JVal) :
    Except (PyErr × ℚ) ℚ := do
  let monthlyIncome ← tryQ 0 (pyGetFloat loanOfficer "monthly_income")
  let monthlyDebts ← tryQ 0 (pyGetFloat loanOfficer "monthly_debts")
  let loanAmount ← tryQ 0 (pyGetFloat loanOfficer "loan_amount")
  if monthlyIncome > 0 then do
    let hasRate ← tryQ 0 (pyContains riskManager "interest_rate")
    let hasTerm ← tryQ 0 (pyContains riskManager "term_months")
    if ¬hasRate ∨ ¬hasTerm then
      -- `return score` with score still 0 (the cap is not applied here)
      pure 0
    else do
      let interestRate := (← tryQ 0 (pyGetFloat riskManager "interest_rate")) / 100 / 12
      let termMonths ← tryQ 0 (pyGetInt riskManager "term_months")
      let step ←
        if interestRate > 0 ∧ termMonths > 0 then do
          let monthlyPayment :=
            loanAmount * interestRate * (1 + interestRate) ^ termMonths.toNat /
              ((1 + interestRate) ^ termMonths.toNat - 1)
          let expectedDti := (monthlyDebts + monthlyPayment) / monthlyIncome
          let reportedDti ← tryQ 0 (pyGetFloat creditAnalyst "dti_ratio")
          pure (dtiIncrement reportedDti expectedDti, some monthlyPayment)
        else
          pure ((0 : ℚ), (none : Option ℚ))
      let s1 := step.1
      let riskAssessment ← tryQ s1 (pyGetLower creditAnalyst "risk_assessment")
      let interestRateAnnual ← tryQ s1 (pyGetFloat riskManager "interest_rate")
      let s2 := rateIncrement riskAssessment interestRateAnnual
      let hasPayment ← tryQ (s1 + s2) (pyContains riskManager "monthly_payment")
      let s3 ←
        if hasPayment then
          match step.2 with
          | none => Except.error (PyErr.unboundLocalError, s1 + s2)
          | some monthlyPayment =>
            if monthlyPayment > 0 then do
              let reportedPayment ← tryQ (s1 + s2) (pyGetFloat riskManager "monthly_payment")
              pure (if |reportedPayment - monthlyPayment| / monthlyPayment < 0.05
                    then (0.25 : ℚ) else 0)
            else pure 0
        else pure 0
      pure (min (s1 + s2 + s3) 1)
  else
    pure (min 0 1)

/-- `_verify_calculations`: the `try` body with its
`except (ValueError, ZeroDivisionError, KeyError)` handler, which keeps the
partial score and returns `min(score, 1.0)`.  Other exceptions propagate. -/
def verifyCalculations (loanOfficer creditAnalyst riskManager : JVal) :
    Except PyErr ℚ :=
  match verifyCalcTry loanOfficer creditAnalyst riskManager with
  | .ok v => .ok v
  | .error (.valueError, s) => .ok (min s 1)
  | .error (.zeroDivisionError, s) => .ok (min s 1)
  | .error (.keyError, s) => .ok (min s 1)
  | .error (e, _) => .error e

/-! ### `_assess_risk_evaluation` (no `try` — every exception propagates) -/

/-- The body of `_assess_risk_evaluation` before the final cap.  Note that
after the `isinstance` check fails, the local `credit_score` keeps its raw
(possibly non-numeric) value, and the later `credit_score < 650` comparison
can raise `TypeError`. -/
def assessRiskTotal (creditAnalyst loanOfficer : JVal) : Except PyErr ℚ := do
  let creditScoreRaw ← pyGet creditAnalyst "credit_score" (.jnum 0)
  let (creditScore, s1) ←
    if isNumeric creditScoreRaw then do
      let cs := truncOfNum creditScoreRaw
      let creditTier ← pyGetLower creditAnalyst "credit_tier"
      let inc : ℚ :=
        if (cs ≥ 750 ∧ creditTier = "excellent") ∨
           (700 ≤ cs ∧ cs < 750 ∧ creditTier = "good") ∨
           (650 ≤ cs ∧ cs < 700 ∧ creditTier = "fair") ∨
           (cs < 650 ∧ creditTier = "poor") then 0.3 else 0
      pure (JVal.jnum (cs : ℚ), inc)
    else
      pure (creditScoreRaw, (0 : ℚ))
  let riskFactors ← pyGet creditAnalyst "risk_factors" (.jarr [])
  let s2 ←
    match riskFactors with
    | .jarr items =>
      if items.length > 0 then do
        let dtiRatio ← pyGetFloat creditAnalyst "dti_ratio"
        let i1 : ℚ :=
          if dtiRatio > 0.43 ∧ items.any (fun r => strContains (pyStrOf r).toLower "dti")
          then 0.1 else 0
        let csLt650 ← pyLtNum creditScore 650
        let i2 : ℚ :=
          if csLt650 ∧ items.any (fun r => strContains (pyStrOf r).toLower "credit")
          then 0.1 else 0
        pure ((0.2 : ℚ) + i1 + i2)
      else pure (0 : ℚ)
    | _ => pure (0 : ℚ)
  let riskScoreVal ← pyGet creditAnalyst "risk_score" (.jnum 0)
  let s3 : ℚ :=
    if isNumeric riskScoreVal ∧ 1 ≤ numVal riskScoreVal ∧ numVal riskScoreVal ≤ 10
    then 0.2 else 0
  let employmentStatus ← pyGetLower loanOfficer "employment_status"
  let s4 : ℚ := if employmentStatus ≠ "" ∧ employmentStatus ≠ "unknown" then 0.1 else 0
  pure (s1 + s2 + s3 + s4)

/-- `_assess_risk_evaluation`: body capped at 1.0; no exception handling. -/
def assessRiskEvaluation (creditAnalyst loanOfficer : JVal) : Except PyErr ℚ :=
  (assessRiskTotal creditAnalyst loanOfficer).map (fun t => min t 1)

/-! ### `_check_decision_logic` -/

/-- The `try` body of `_check_decision_logic` (handler: `except (ValueError,
KeyError)`, falling through to `return min(score, 1.0)`). -/
def decisionLogicTry (creditAnalyst riskManager : JVal) (finalDecision : JVal) :
    Except (PyErr × ℚ) ℚ := do
  let dtiRatio ← tryQ 0 (pyGetFloat creditAnalyst "dti_ratio")
  let creditScore ← tryQ 0 (pyGetInt creditAnalyst "credit_score")
  let riskAssessment ← tryQ 0 (pyGetLower creditAnalyst "risk_assessment")
  let rmDecision ← tryQ 0 (pyGetUpper riskManager "decision")
  let fdUpper ← tryQ 0 (pyUpper finalDecision)
  let s1 : ℚ := if rmDecision = fdUpper then 0.3 else 0
  let s2 ←
    if dtiRatio > 0 then
      if dtiRatio > 0.43 then
        if rmDecision = "DENIED" then pure (0.3 : ℚ)
        else if rmDecision = "APPROVED" then do
          let interestRate ← tryQ s1 (pyGetFloat riskManager "interest_rate")
          pure (if interestRate > 12 then (0.2 : ℚ) else 0)
        else pure (0 : ℚ)
      else pure (0.1 : ℚ)
    else pure (0 : ℚ)
  let s3 : ℚ :=
    if creditScore < 620 ∧ rmDecision = "DENIED" then 0.2
    else if creditScore ≥ 720 ∧ rmDecision = "APPROVED" then 0.2
    else if 620 ≤ creditScore ∧ creditScore < 720 then 0.1
    else 0
  let s4 : ℚ :=
    if riskAssessment = "high" ∧ rmDecision = "DENIED" then 0.2
    else if riskAssessment = "low" ∧ rmDecision = "APPROVED" then 0.2
    else 0
  pure (min (s1 + s2 + s3 + s4) 1)

/-- `_check_decision_logic` with its `except (ValueError, KeyError)` handler. -/
def checkDecisionLogic (creditAnalyst riskManager : JVal) (finalDecision : JVal) :
    Except PyErr ℚ :=
  match decisionLogicTry creditAnalyst riskManager finalDecision with
  | .ok v => .ok v
  | .error (.valueError, s) => .ok (min s 1)
  | .error (.keyError, s) => .ok (min s 1)
  | .error (e, _) => .error e

/-! ### `_check_consistency` (no `try` — every exception propagates) -/

/-- `len(set(l)) == 1` for a list: nonempty with all elements equal. -/
def lenSetEqOne (l : List ℚ) : Bool :=
  match l with
  | [] => false
  | x :: xs => xs.all (fun y => y == x)

/-- `len(set(l)) > 1` for a list of strings: two distinct elements exist. -/
def lenSetGtOne (l : List String) : Bool :=
  match l with
  | [] => false
  | x :: xs => !xs.all (fun y => y == x)

/-- The `loan_amount` / `monthly_income` collection loops of
`_check_consistency`: `float(agent_data.get(key, 0))` for every agent that
contains the key. -/
def collectFloats (key : String) : List (String × JVal) → Except PyErr (List ℚ)
  | [] => .ok []
  | (_, agentData) :: rest => do
    let has ← pyContains agentData key
    if has then do
      let v ← pyGetFloat agentData key
      let tail ← collectFloats key rest
      pure (v :: tail)
    else
      collectFloats key rest

/-- The recommendation-normalization loop of `_check_consistency`:
uppercase each agent's `recommendation` and map it to "APPROVED" /
"DENIED" by substring match, skipping unrecognized ones. -/
def collectRecs : List (String × JVal) → Except PyErr (List String)
  | [] => .ok []
  | (_, agentData) :: rest => do
    let has ← pyContains agentData "recommendation"
    if has then do
      let recVal ← pyIndex agentData "recommendation"
      let recStr ← pyUpper recVal
      let tail ← collectRecs rest
      if strContains recStr "APPROV" then pure ("APPROVED" :: tail)
      else if strContains recStr "DENI" ∨ strContains recStr "DECLIN" then
        pure ("DENIED" :: tail)
      else pure tail
    else
      collectRecs rest

/-- The body of `_check_consistency` before the final cap. -/
def checkConsistencyTotal (agents : JVal) (finalDecision : JVal) : Except PyErr ℚ := do
  let items ← pyItems agents
  let loanAmounts ← collectFloats "loan_amount" items
  let s1 : ℚ := if lenSetEqOne loanAmounts ∧ loanAmounts.length ≥ 2 then 0.3 else 0
  let incomes ← collectFloats "monthly_income" items
  let s2 : ℚ := if lenSetEqOne incomes ∧ incomes.length ≥ 2 then 0.3 else 0
  let recommendations ← collectRecs items
  let s3 : ℚ :=
    if recommendations ≠ [] then
      if recommendations.all (fun r => r == "APPROVED") ∧
         jvalEqStr finalDecision "APPROVED" then 0.4
      else if recommendations.all (fun r => r == "DENIED") ∧
         jvalEqStr finalDecision "DENIED" then 0.4
      else if lenSetGtOne recommendations then 0.2
      else 0
    else 0
  pure (s1 + s2 + s3)

/-- `_check_consistency`: body capped at 1.0; no exception handling. -/
def checkConsistency (agents : JVal) (finalDecision : JVal) : Except PyErr ℚ :=
  (checkConsistencyTotal agents finalDecision).map (fun t => min t 1)

/-! ### `__call__`: parse, gate, weight, band, noise -/

/-- The `reward_scale` table from `__init__`: band class → base reward.
(The argument is always in 1..5; the final catch-all keeps the function
total.) -/
def rewardScale : Nat → ℚ
  | 1 => 0
  | 2 => 0.15
  | 3 => 0.3
  | 4 => 0.4
  | 5 => 1
  | _ => 0

/-- The band mapping of `__call__`: weighted score → base reward, via the
class thresholds 0.9 / 0.75 / 0.6 / 0.4 and the `reward_scale` table. -/
def bandReward (finalScore : ℚ) : ℚ :=
  rewardScale
    (if finalScore ≥ 0.9 then 5
     else if finalScore ≥ 0.75 then 4
     else if finalScore ≥ 0.6 then 3
     else if finalScore ≥ 0.4 then 2
     else 1)

/-- Response parsing step of `__call__`: strings are fence-stripped and
JSON-parsed; structured objects pass through. -/
def respParse : RespInput → Except PyErr JVal
  | .text s => jsonLoads (stripFences s)
  | .data v => .ok v

/-- The outcome of `__call__`'s `try` body up to (and including) band
mapping, before the noise draw: either the early structure-gate exit
(carrying the raw structure score) or the banded base reward. -/
inductive PreOutcome where
  | gated : ℚ → PreOutcome
  | banded : ℚ → PreOutcome

/-- The `try` body of `__call__`: parse, structure gate, the four
sub-scorers, weighted sum, band mapping.  The noise draw and the
`return_dict` formatting are applied afterwards by `callScore`. -/
def scoreCore (resp : RespInput) : Except PyErr PreOutcome := do
  let responseData ← respParse resp
  let structureScore ← checkStructure responseData
  if structureScore < 0.5 then
    pure (.gated structureScore)
  else do
    let agents ← pyGet responseData "agent_outputs" (.jobj [])
    let loanOfficer ← pyGet agents "loan_officer" (.jobj [])
    let creditAnalyst ← pyGet agents "credit_analyst" (.jobj [])
    let riskManager ← pyGet agents "risk_manager" (.jobj [])
    let calcScore ← verifyCalculations loanOfficer creditAnalyst riskManager
    let riskScore ← assessRiskEvaluation creditAnalyst loanOfficer
    let decisionVal ← pyGet responseData "decision" (.jstr "")
    let decisionScore ← checkDecisionLogic creditAnalyst riskManager decisionVal
    let decisionVal2 ← pyGet responseData "decision" (.jstr "")
    let consistencyScore ← checkConsistency agents decisionVal2
    let finalScore :=
      structureScore * 0.2 + calcScore * 0.25 + riskScore * 0.2 +
        decisionScore * 0.2 + consistencyScore * 0.15
    pure (.banded (bandReward finalScore))

/-- The `score_components` dict returned by the gated early exit when
`return_dict` is true (note: five keys, not a single "reward" key). -/
def gatedComponents (structureScore : ℚ) : List (String × ℚ) :=
  [("structure", structureScore * 0.2), ("calculations", 0), ("risk_assessment", 0),
   ("decision_logic", 0), ("consistency", 0)]

/-- `LoanUnderwritingReward.__call__` (the unused `prompt`/`truth`
parameters are omitted).  `noise` models the `random.uniform(-0.02, 0.02)`
draw.  The top-level handler catches exactly `json.JSONDecodeError`,
`KeyError` and `TypeError`, returning reward 0.0; every other exception
escapes the call. -/
def callScore (resp : RespInput) (returnDict : Bool) (noise : ℚ) :
    Except PyErr ScoreResult :=
  match scoreCore resp with
  | .ok (.gated s) =>
    .ok (if returnDict then .breakdown (gatedComponents s)
         else .scalar (s * 0.2 + 0 + 0 + 0 + 0))
  | .ok (.banded base) =>
    let finalReward := max 0 (min 1 (base + noise))
    .ok (if returnDict then .breakdown [("reward", finalReward)]
         else .scalar finalReward)
  | .error .jsonDecodeError =>
    .ok (if returnDict then .breakdown [("reward", 0)] else .scalar 0)
  | .error .keyError =>
    .ok (if returnDict then .breakdown [("reward", 0)] else .scalar 0)
  | .error .typeError =>
    .ok (if returnDict then .breakdown [("reward", 0)] else .scalar 0)
  | .error e => .error e

/-! ### Concrete envelopes used as test vectors -/

/-- A minimal envelope with structure score 0.2 (gated). -/
def env5 : JVal := .jobj [("trajectory_id", .jstr "t")]

/-- Loan officer of the band-Poor envelope `env7`. -/
def lo7 : JVal := .jobj [("monthly_income", .jnum 7), ("monthly_debts", .jnum 0),
  ("loan_amount", .jnum 3), ("recommendation", .jstr "APPROVED")]

/-- Credit analyst of `env7` (wildly wrong DTI, low credit score). -/
def ca7 : JVal := .jobj [("dti_ratio", .jnum 9), ("credit_score", .jnum 500),
  ("risk_assessment", .jstr "none"), ("loan_amount", .jnum 3),
  ("monthly_income", .jnum 7), ("recommendation", .jstr "APPROVED")]

/-- Risk manager of `env7` (no `term_months`, so calculations score 0). -/
def rm7 : JVal := .jobj [("decision", .jstr "APPROVED"), ("interest_rate", .jnum 5)]

/-- The agent map of `env7`. -/
def agents7 : JVal := .jobj [("loan_officer", lo7), ("credit_analyst", ca7),
  ("risk_manager", rm7)]

/-- An envelope passing the structure gate with weighted score 0.41
(structure 1, decision-logic 0.3, consistency 1): band Poor, base reward
0.15. -/
def env7 : JVal := .jobj [("trajectory_id", .jstr "t7"), ("decision", .jstr "APPROVED"),
  ("agent_outputs", agents7)]

/-- Loan officer of the `env2` envelope. -/
def lo2 : JVal := .jobj [("monthly_income", .jnum 5000), ("monthly_debts", .jnum 500),
  ("loan_amount", .jnum 100000)]

/-- Credit analyst of the `env2` envelope. -/
def ca2 : JVal := .jobj [("dti_ratio", .jnum 0.3), ("credit_score", .jnum 700),
  ("risk_assessment", .jstr "low")]

/-- Risk manager of the `env2` envelope: `interest_rate` 0 (so the derived
monthly rate is non-positive and the payment formula is skipped) while
`monthly_payment` is present — the line
`if "monthly_payment" in risk_manager and monthly_payment > 0` then reads
the never-assigned local `monthly_payment`. -/
def rm2 : JVal := .jobj [("decision", .jstr "APPROVED"), ("interest_rate", .jnum 0),
  ("term_months", .jnum 360), ("monthly_payment", .jnum 1000)]

/-- Envelope passing the structure gate on which `_verify_calculations`
raises `UnboundLocalError`. -/
def env2 : JVal := .jobj [("trajectory_id", .jstr "t2"), ("decision", .jstr "APPROVED"),
  ("agent_outputs", .jobj [("loan_officer", lo2), ("credit_analyst", ca2),
    ("risk_manager", rm2)])]

/-- Variant credit analyst: risk assessment "medium". -/
def ca2b : JVal := .jobj [("dti_ratio", .jnum 0.3), ("credit_score", .jnum 700),
  ("risk_assessment", .jstr "medium")]

/-- Variant risk manager: positive annual rate 10 but `term_months` 0 (the
derived term is non-positive), no `monthly_payment` key. -/
def rm2b : JVal := .jobj [("decision", .jstr "APPROVED"), ("interest_rate", .jnum 10),
  ("term_months", .jnum 0)]

/-- Loan officer of the `env3` envelope. -/
def lo3 : JVal := .jobj [("monthly_income", .jnum 4000), ("monthly_debts", .jnum 300),
  ("loan_amount", .jnum 50000), ("employment_status", .jstr "employed")]

/-- Credit analyst of the `env3` envelope: non-numeric `dti_ratio` string
together with a non-empty `risk_factors` list. -/
def ca3 : JVal := .jobj [("dti_ratio", .jstr "abc"), ("credit_score", .jnum 680),
  ("risk_assessment", .jstr "medium"), ("risk_factors", .jarr [.jstr "late payments"]),
  ("risk_score", .jnum 5)]

/-- Risk manager of the `env3` envelope. -/
def rm3 : JVal := .jobj [("decision", .jstr "DENIED"), ("interest_rate", .jnum 10)]

/-- Envelope passing the structure gate on which `_assess_risk_evaluation`
raises `ValueError` (from `float("abc")`), which no handler catches. -/
def env3 : JVal := .jobj [("trajectory_id", .jstr "t3"), ("decision", .jstr "DENIED"),
  ("agent_outputs", .jobj [("loan_officer", lo3), ("credit_analyst", ca3),
    ("risk_manager", rm3)])]

/-- Credit analyst with a string-typed `credit_score` (guarded by the
`isinstance` check) and no `risk_factors`: only the tier increment is
forfeited. -/
def caCsStr (s : String) : JVal :=
  .jobj [("credit_score", .jstr s), ("risk_score", .jnum 5)]

/-- Credit analyst with a string-typed `dti_ratio` reached by the unguarded
`float()` coercion (non-empty `risk_factors`). -/
def caDtiStr (s : String) : JVal :=
  .jobj [("dti_ratio", .jstr s), ("credit_score", .jnum 700),
    ("risk_factors", .jarr [.jstr "x"])]

/-- Loan officer of the `env4` envelope. -/
def lo4 : JVal := .jobj [("monthly_income", .jnum 6000), ("monthly_debts", .jnum 400),
  ("loan_amount", .jnum 80000), ("employment_status", .jstr "employed")]

/-- Credit analyst of the `env4` envelope (non-numeric `dti_ratio`). -/
def ca4 : JVal := .jobj [("dti_ratio", .jstr "unknown"), ("credit_score", .jnum 710),
  ("risk_assessment", .jstr "medium"), ("risk_factors", .jarr [.jstr "thin file"]),
  ("risk_score", .jnum 4)]

/-- Risk manager of the `env4` envelope. -/
def rm4 : JVal := .jobj [("decision", .jstr "APPROVED"), ("interest_rate", .jnum 9)]

/-- Envelope passing the structure gate on which scoring raises an
uncaught `ValueError`. -/
def env4 : JVal := .jobj [("trajectory_id", .jstr "t4"), ("decision", .jstr "APPROVED"),
  ("agent_outputs", .jobj [("loan_officer", lo4), ("credit_analyst", ca4),
    ("risk_manager", rm4)])]

/-- A gated envelope (structure score 0.4): two top-level fields, no
`agent_outputs`. -/
def env8 : JVal := .jobj [("decision", .jstr "APPROVED"), ("trajectory_id", .jstr "t8")]

/-- An agent reporting `loan_amount` 250000, `monthly_income` 8000 and a
free-text recommendation (the C9 scenario). -/
def agent9 (recText : String) : JVal :=
  .jobj [("loan_amount", .jnum 250000), ("monthly_income", .jnum 8000),
    ("recommendation", .jstr recText)]

/-- Three agents carrying only (differently-cased) approving
recommendations: isolates the recommendation-alignment bonus of
`_check_consistency`. -/
def agentsRItems : List (String × JVal) :=
  [("loan_officer", .jobj [("recommendation", .jstr "approve")]),
   ("credit_analyst", .jobj [("recommendation", .jstr "Approved")]),
   ("risk_manager", .jobj [("recommendation", .jstr "APPROVED")])]

/-- The agent map built from `agentsRItems`. -/
def agentsR : JVal := .jobj agentsRItems

/-! ### General lemmas about the embedding -/

theorem okBind {ε α β : Type} (a : α) (f : α → Except ε β) :
    (Except.ok a : Except ε α) >>= f = f a := rfl

theorem errBind {ε α β : Type} (e : ε) (f : α → Except ε β) :
    (Except.error e : Except ε α) >>= f = Except.error e := rfl

theorem pureBind {ε α β : Type} (a : α) (f : α → Except ε β) :
    (pure a : Except ε α) >>= f = f a := rfl

/-- The band mapping written out as the threshold ladder. -/
theorem bandReward_eq (x : ℚ) :
    bandReward x =
      (if x ≥ 0.9 then (1 : ℚ)
       else if x ≥ 0.75 then 0.4
       else if x ≥ 0.6 then 0.3
       else if x ≥ 0.4 then 0.15
       else 0) := by
  unfold bandReward
  split_ifs <;> rfl

/-- On a banded core outcome, `__call__` returns the clamped noisy reward. -/
theorem callScore_banded (resp : RespInput) (b noise : ℚ)
    (hc : scoreCore resp = .ok (.banded b)) :
    callScore resp false noise = .ok (.scalar (max 0 (min 1 (b + noise)))) := by
  unfold callScore
  rw [hc]
  rfl

/-- On a banded core outcome with `return_dict`, `__call__` returns the
single-key reward mapping. -/
theorem callScore_banded_dict (resp : RespInput) (b noise : ℚ)
    (hc : scoreCore resp = .ok (.banded b)) :
    callScore resp true noise = .ok (.breakdown [("reward", max 0 (min 1 (b + noise)))]) := by
  unfold callScore
  rw [hc]
  rfl

/-- On the structure-gated outcome, `__call__` returns the weighted
structure term alone (the sum of the component dict's values). -/
theorem callScore_gated (resp : RespInput) (s noise : ℚ)
    (hc : scoreCore resp = .ok (.gated s)) :
    callScore resp false noise = .ok (.scalar (s * 0.2 + 0 + 0 + 0 + 0)) := by
  unfold callScore
  rw [hc]
  rfl

/-- On the structure-gated outcome with `return_dict`, `__call__` returns
the full five-component dict. -/
theorem callScore_gated_dict (resp : RespInput) (s noise : ℚ)
    (hc : scoreCore resp = .ok (.gated s)) :
    callScore resp true noise = .ok (.breakdown (gatedComponents s)) := by
  unfold callScore
  rw [hc]
  rfl

/-- A caught exception (`json.JSONDecodeError`, `KeyError`, `TypeError`)
yields the scalar reward 0.0. -/
theorem callScore_caught_scalar (resp : RespInput) (noise : ℚ) (e : PyErr)
    (hc : scoreCore resp = .error e)
    (he : e = .jsonDecodeError ∨ e = .keyError ∨ e = .typeError) :
    callScore resp false noise = .ok (.scalar 0) := by
  rcases he with he | he | he <;> subst he <;> (unfold callScore; rw [hc]; try rfl)

/-- A caught exception with `return_dict` yields the single-key mapping
with reward 0.0. -/
theorem callScore_caught_dict (resp : RespInput) (noise : ℚ) (e : PyErr)
    (hc : scoreCore resp = .error e)
    (he : e = .jsonDecodeError ∨ e = .keyError ∨ e = .typeError) :
    callScore resp true noise = .ok (.breakdown [("reward", 0)]) := by
  rcases he with he | he | he <;> subst he <;> (unfold callScore; rw [hc]; try rfl)

/-- An uncaught exception escapes `__call__`. -/
theorem callScore_uncaught (resp : RespInput) (noise : ℚ) (returnDict : Bool) (e : PyErr)
    (hc : scoreCore resp = .error e)
    (he : e = .valueError ∨ e = .zeroDivisionError ∨ e = .attributeError ∨
          e = .unboundLocalError) :
    callScore resp returnDict noise = .error e := by
  rcases he with he | he | he | he <;> subst he <;> (unfold callScore; rw [hc]; try rfl)

/-- A successful structure score is at most 1 (the final cap). -/
theorem checkStructure_ok_le (rd : JVal) (s : ℚ) (h : checkStructure rd = .ok s) :
    s ≤ 1 := by
  unfold checkStructure at h
  cases h2 : checkStructureTotal rd with
  | ok t =>
    rw [h2] at h
    simp only [Except.map] at h
    cases h
    exact min_le_right t 1
  | error e =>
    rw [h2] at h
    simp only [Except.map] at h
    cases h

/-- Clamping to [0, 1] is 1-Lipschitz. -/
theorem clamp01_sub_le (x y : ℚ) :
    |max 0 (min 1 x) - max 0 (min 1 y)| ≤ |x - y| := by
  rw [abs_sub_le_iff]
  constructor <;>
    · simp only [max_def, min_def]
      split_ifs <;>
        linarith [le_abs_self (x - y), neg_abs_le (x - y), abs_nonneg (x - y)]

/-- Every banded outcome of the scoring core is one of the five
`reward_scale` values. -/
theorem scoreCore_banded_cases (resp : RespInput) (b : ℚ)
    (h : scoreCore resp = .ok (.banded b)) :
    b = 0 ∨ b = 0.15 ∨ b = 0.3 ∨ b = 0.4 ∨ b = 1 := by
  unfold scoreCore at h
  cases hp : respParse resp with
  | error e =>
    simp only [hp, errBind] at h
    exact Except.noConfusion h
  | ok rd =>
  simp only [hp, okBind] at h
  cases hs : checkStructure rd with
  | error e =>
    simp only [hs, errBind] at h
    exact Except.noConfusion h
  | ok s =>
  simp only [hs, okBind] at h
  by_cases hlt : s < 0.5
  · rw [if_pos hlt] at h
    exact absurd (Except.ok.inj h) (fun hx => PreOutcome.noConfusion hx)
  · rw [if_neg hlt] at h
    cases hag : pyGet rd "agent_outputs" (.jobj []) with
    | error e =>
      simp only [hag, errBind] at h
      exact Except.noConfusion h
    | ok agents =>
    simp only [hag, okBind] at h
    cases hlo : pyGet agents "loan_officer" (.jobj []) with
    | error e =>
      simp only [hlo, errBind] at h
      exact Except.noConfusion h
    | ok lo =>
    simp only [hlo, okBind] at h
    cases hca : pyGet agents "credit_analyst" (.jobj []) with
    | error e =>
      simp only [hca, errBind] at h
      exact Except.noConfusion h
    | ok ca =>
    simp only [hca, okBind] at h
    cases hrm : pyGet agents "risk_manager" (.jobj []) with
    | error e =>
      simp only [hrm, errBind] at h
      exact Except.noConfusion h
    | ok rm =>
    simp only [hrm, okBind] at h
    cases hc : verifyCalculations lo ca rm with
    | error e =>
      simp only [hc, errBind] at h
      exact Except.noConfusion h
    | ok c =>
    simp only [hc, okBind] at h
    cases hr : assessRiskEvaluation ca lo with
    | error e =>
      simp only [hr, errBind] at h
      exact Except.noConfusion h
    | ok r =>
    simp only [hr, okBind] at h
    cases hd1 : pyGet rd "decision" (.jstr "") with
    | error e =>
      simp only [hd1, errBind] at h
      exact Except.noConfusion h
    | ok dv =>
    simp only [hd1, okBind] at h
    cases hd : checkDecisionLogic ca rm dv with
    | error e =>
      simp only [hd, errBind] at h
      exact Except.noConfusion h
    | ok d =>
    simp only [hd, okBind] at h
    cases hk : checkConsistency agents dv with
    | error e =>
      simp only [hk, errBind] at h
      exact Except.noConfusion h
    | ok k =>
    simp only [hk, okBind] at h
    have hb : b = bandReward (s * 0.2 + c * 0.25 + r * 0.2 + d * 0.2 + k * 0.15) := by
      have := Except.ok.inj h
      cases this
      rfl
    rw [hb, bandReward_eq]
    split_ifs <;> norm_num

/-! ### Claim theorems -/

/-- C1: The spec claims every unparseable or non-mapping response yields
exactly 0.0 with no escaping exception.  Malformed syntax and non-iterable
scalars (numbers) do return 0.0 (first, second and fifth conjuncts), but a
response parsing to a JSON array, or a bare JSON string, reaches
`response_data.get("agent_outputs", {})` in `_check_structure` and raises
`AttributeError`, which the top-level
`except (json.JSONDecodeError, KeyError, TypeError)` does not catch: the
exception escapes the call instead of returning 0.0. -/
theorem c1_malformed_response_eval :
    callScore (.text "not valid") false 0 = .ok (.scalar 0) ∧
    callScore (.text "not valid") true 0 = .ok (.breakdown [("reward", 0)]) ∧
    callScore (.text "[1, 2, 3]") false 0 = .error .attributeError ∧
    callScore (.data (.jstr "hello")) false 0 = .error .attributeError ∧
    callScore (.data (.jnum 42)) false 0 = .ok (.scalar 0) :=
  ⟨rfl, rfl, rfl, rfl, rfl⟩

/-- C2: The spec claims that whenever the derived monthly rate or term is
non-positive, the calculations component contributes 0 and scoring
completes normally regardless of which other keys are present.  On `env2`
(interest_rate 0 with `monthly_payment` present) the code instead raises
`UnboundLocalError` — the local `monthly_payment` is referenced before
assignment — and the exception escapes the whole call (first two
conjuncts).  And with a positive rate but `term_months` 0 that matches the
risk tier, the component is 0.25, not 0 (third conjunct). -/
theorem c2_nonpositive_rate_term_eval :
    verifyCalculations lo2 ca2 rm2 = .error .unboundLocalError ∧
    callScore (.data env2) false 0 = .error .unboundLocalError ∧
    verifyCalculations lo2 ca2b rm2b = .ok 0.25 := by
  refine ⟨?_, ?_, ?_⟩ <;> with_unfolding_all rfl

/-- C3 counterexample: a wrong-typed field is *not* always contained to
its own increment.  On `env3` (string `dti_ratio` "abc" with a non-empty
`risk_factors` list) the unguarded `float()` in `_assess_risk_evaluation`
raises `ValueError`, which propagates out of the scorer and out of the
whole call — contradicting "the failure is never propagated out of the
scorer". -/
theorem c3_counter_value_error_escapes :
    assessRiskEvaluation ca3 lo3 = .error .valueError ∧
    verifyCalculations lo3 ca3 rm3 = .ok 0 ∧
    callScore (.data env3) false 0 = .error .valueError := by
  refine ⟨?_, ?_, ?_⟩ <;> with_unfolding_all rfl

/-- C3 amended: a wrong-typed field guarded by an `isinstance` check (a
string `credit_score`, with `risk_factors` absent) forfeits only the tier
increment — the remaining increments (risk_score 0.2, employment 0.1) are
still earned and the scorer returns normally, for every string value.  But
a wrong-typed field reached by an unguarded `float()` coercion (a
non-numeric `dti_ratio` string with non-empty `risk_factors`) raises
`ValueError` out of the scorer. -/
theorem c3_amended_fault_granularity :
    (∀ s : String, assessRiskEvaluation (caCsStr s) lo3 = .ok 0.3) ∧
    (∀ s : String, strToRat s = none →
      assessRiskEvaluation (caDtiStr s) lo3 = .error .valueError) := by
  constructor
  · intro s
    have h1 : pyGet (caCsStr s) "credit_score" (.jnum 0) = .ok (.jstr s) := rfl
    have h2 : isNumeric (.jstr s) = false := rfl
    have h3 : pyGet (caCsStr s) "risk_factors" (.jarr []) = .ok (.jarr []) := rfl
    have h4 : pyGet (caCsStr s) "risk_score" (.jnum 0) = .ok (.jnum 5) := rfl
    have h5 : pyGetLower lo3 "employment_status" = .ok "employed" := by
      with_unfolding_all rfl
    unfold assessRiskEvaluation assessRiskTotal
    simp only [h1, h2, h3, h4, h5, okBind, pureBind, Bool.false_eq_true, if_false]
    norm_num [isNumeric, numVal, min_def, Except.map, ne_eq, String.reduceEq]
    with_unfolding_all rfl
  · intro s hs
    have hgf : pyGetFloat (caDtiStr s) "dti_ratio" = .error .valueError := by
      show (match strToRat s with
            | some q => Except.ok q
            | none => Except.error PyErr.valueError) = .error .valueError
      rw [hs]
    unfold assessRiskEvaluation assessRiskTotal
    simp only [hgf, errBind]
    with_unfolding_all rfl

/-- C3 amended witness at the concrete string "abc". -/
theorem c3_amended_fault_granularity_witness :
    strToRat "abc" = none ∧
    assessRiskEvaluation (caDtiStr "abc") lo3 = .error .valueError :=
  ⟨rfl, c3_amended_fault_granularity.2 "abc" rfl⟩

/-- C4: The spec claims scoring is total and always returns a reward in
[0, 1].  On `env4` (an envelope passing the structure gate whose
`credit_analyst` reports a non-numeric `dti_ratio` string together with a
non-empty `risk_factors` list) the call raises `ValueError`, which the
top-level handler does not catch: the function is not total. -/
theorem c4_uncaught_value_error_eval :
    callScore (.data env4) false 0 = .error .valueError ∧
    callScore (.data env4) true 0 = .error .valueError := by
  refine ⟨?_, ?_⟩ <;> with_unfolding_all rfl

/-- C5: If the raw structure score is below 0.5, the final scalar result is
exactly 0.2 times the structure score (hence at most 0.2, since the
structure score is capped at 1), for every noise draw — the noise is never
applied on this path, and no other component contributes. -/
theorem c5_structure_gate (resp : RespInput) (rd : JVal) (s noise : ℚ)
    (hp : respParse resp = .ok rd) (hs : checkStructure rd = .ok s)
    (hlt : s < 0.5) :
    callScore resp false noise = .ok (.scalar (0.2 * s)) ∧ 0.2 * s ≤ 0.2 := by
  have hcore : scoreCore resp = .ok (.gated s) := by
    unfold scoreCore
    simp only [hp, okBind, hs]
    rw [if_pos hlt]
    rfl
  refine ⟨?_, ?_⟩
  · have hmain : callScore resp false noise = .ok (.scalar (s * 0.2 + 0 + 0 + 0 + 0)) := by
      unfold callScore
      rw [hcore]
      rfl
    rw [hmain]
    have h1 : (s * 0.2 + 0 + 0 + 0 + 0 : ℚ) = 0.2 * s := by ring
    rw [h1]
  · have h2 := checkStructure_ok_le rd s hs
    linarith

/-- C5 witness: the one-field envelope `env5` has structure score 0.2 and
final reward 0.04, for an arbitrary noise draw (here 7). -/
theorem c5_structure_gate_witness :
    callScore (.data env5) false 7 = .ok (.scalar (0.2 * 0.2)) ∧
    (0.2 : ℚ) * 0.2 ≤ 0.2 :=
  c5_structure_gate (.data env5) env5 0.2 7 rfl (by with_unfolding_all rfl) (by norm_num)

/-- C6: For every envelope passing the structure gate whose sub-scorers
complete with values s, c, r, d, k, the weighted score
w = 0.2·s + 0.25·c + 0.2·r + 0.2·d + 0.15·k is mapped to the pre-noise
band reward (≥0.90 → 1.0; ≥0.75 → 0.4; ≥0.60 → 0.3; ≥0.40 → 0.15;
else 0.0), and the returned reward is that banded value plus the noise
draw, clamped to [0, 1]. -/
theorem c6_weighting_banding_noise (resp : RespInput) (rd agents lo ca rm dv : JVal)
    (s c r d k noise : ℚ)
    (hp : respParse resp = .ok rd)
    (hs : checkStructure rd = .ok s) (hge : 0.5 ≤ s)
    (hag : pyGet rd "agent_outputs" (.jobj []) = .ok agents)
    (hlo : pyGet agents "loan_officer" (.jobj []) = .ok lo)
    (hca : pyGet agents "credit_analyst" (.jobj []) = .ok ca)
    (hrm : pyGet agents "risk_manager" (.jobj []) = .ok rm)
    (hc : verifyCalculations lo ca rm = .ok c)
    (hr : assessRiskEvaluation ca lo = .ok r)
    (hdv : pyGet rd "decision" (.jstr "") = .ok dv)
    (hd : checkDecisionLogic ca rm dv = .ok d)
    (hk : checkConsistency agents dv = .ok k) :
    callScore resp false noise =
      .ok (.scalar (max 0 (min 1
        ((if 0.2 * s + 0.25 * c + 0.2 * r + 0.2 * d + 0.15 * k ≥ 0.9 then (1 : ℚ)
          else if 0.2 * s + 0.25 * c + 0.2 * r + 0.2 * d + 0.15 * k ≥ 0.75 then 0.4
          else if 0.2 * s + 0.25 * c + 0.2 * r + 0.2 * d + 0.15 * k ≥ 0.6 then 0.3
          else if 0.2 * s + 0.25 * c + 0.2 * r + 0.2 * d + 0.15 * k ≥ 0.4 then 0.15
          else 0) + noise)))) := by
  have hcore : scoreCore resp =
      .ok (.banded (bandReward (s * 0.2 + c * 0.25 + r * 0.2 + d * 0.2 + k * 0.15))) := by
    unfold scoreCore
    simp only [hp, okBind, hs]
    rw [if_neg (not_lt.mpr hge)]
    simp only [hag, okBind, hlo, hca, hrm, hc, hr, hdv, hd, hk]
    rfl
  rw [callScore_banded resp _ noise hcore]
  have hw : s * 0.2 + c * 0.25 + r * 0.2 + d * 0.2 + k * 0.15
      = 0.2 * s + 0.25 * c + 0.2 * r + 0.2 * d + 0.15 * k := by ring
  rw [hw, bandReward_eq]

/-- C6 witness: `env7` has component scores (1, 0, 0, 0.3, 1), weighted
score 0.41, band Poor with base reward 0.15. -/
theorem c6_weighting_banding_noise_witness :
    callScore (.data env7) false 0 =
      .ok (.scalar (max 0 (min 1
        ((if 0.2 * 1 + 0.25 * 0 + 0.2 * 0 + 0.2 * 0.3 + 0.15 * 1 ≥ (0.9 : ℚ) then (1 : ℚ)
          else if 0.2 * 1 + 0.25 * 0 + 0.2 * 0 + 0.2 * 0.3 + 0.15 * 1 ≥ (0.75 : ℚ) then 0.4
          else if 0.2 * 1 + 0.25 * 0 + 0.2 * 0 + 0.2 * 0.3 + 0.15 * 1 ≥ (0.6 : ℚ) then 0.3
          else if 0.2 * 1 + 0.25 * 0 + 0.2 * 0 + 0.2 * 0.3 + 0.15 * 1 ≥ (0.4 : ℚ) then 0.15
          else 0) + 0)))) :=
  c6_weighting_banding_noise (.data env7) env7 agents7 lo7 ca7 rm7 (.jstr "APPROVED")
    1 0 0 0.3 1 0
    rfl
    (by with_unfolding_all rfl)
    (by norm_num)
    rfl rfl rfl rfl
    (by with_unfolding_all rfl)
    (by with_unfolding_all rfl)
    rfl
    (by with_unfolding_all rfl)
    (by with_unfolding_all rfl)

/-- C7 counterexample: on `env7` (banded base reward 0.15), the noise
draws +0.02 and −0.02 — both inside the documented noise band — give
rewards 0.17 and 0.13, which differ by 0.04 > 0.02: two calls on
identical input are *not* within 0.02 of each other. -/
theorem c7_counter_noise_spread :
    callScore (.data env7) false 0.02 = .ok (.scalar 0.17) ∧
    callScore (.data env7) false (-0.02) = .ok (.scalar 0.13) ∧
    ¬ ((0.17 : ℚ) - 0.13 ≤ 0.02) :=
  ⟨by with_unfolding_all rfl, by with_unfolding_all rfl, by norm_num⟩

/-- C7 amended: two scalar results on the same input differ by at most
0.04 (twice the noise half-width); each is within 0.02 of the pre-noise
banded value, which is a pure function of the input (hence bit-identical
across calls). -/
theorem c7_amended_noise_bound :
    (∀ (resp : RespInput) (n1 n2 r1 r2 : ℚ),
      -0.02 ≤ n1 → n1 ≤ 0.02 → -0.02 ≤ n2 → n2 ≤ 0.02 →
      callScore resp false n1 = .ok (.scalar r1) →
      callScore resp false n2 = .ok (.scalar r2) →
      |r1 - r2| ≤ 0.04) ∧
    (∀ (resp : RespInput) (b n r : ℚ),
      scoreCore resp = .ok (.banded b) → -0.02 ≤ n → n ≤ 0.02 →
      callScore resp false n = .ok (.scalar r) →
      |r - b| ≤ 0.02) := by
  constructor
  · intro resp n1 n2 r1 r2 ha1 hb1 ha2 hb2 h1 h2
    cases hcs : scoreCore resp with
    | ok pre =>
      cases pre with
      | gated s =>
        rw [callScore_gated resp s n1 hcs] at h1
        rw [callScore_gated resp s n2 hcs] at h2
        have e1 := ScoreResult.scalar.inj (Except.ok.inj h1)
        have e2 := ScoreResult.scalar.inj (Except.ok.inj h2)
        rw [← e1, ← e2]
        norm_num
      | banded b =>
        rw [callScore_banded resp b n1 hcs] at h1
        rw [callScore_banded resp b n2 hcs] at h2
        have e1 := ScoreResult.scalar.inj (Except.ok.inj h1)
        have e2 := ScoreResult.scalar.inj (Except.ok.inj h2)
        rw [← e1, ← e2]
        have hl := clamp01_sub_le (b + n1) (b + n2)
        have he : (b + n1) - (b + n2) = n1 - n2 := by ring
        rw [he] at hl
        have hn : |n1 - n2| ≤ 0.04 := abs_le.mpr ⟨by linarith, by linarith⟩
        linarith
    | error e =>
      cases e
      case valueError =>
        rw [callScore_uncaught resp n1 false _ hcs (by tauto)] at h1
        exact Except.noConfusion h1
      case zeroDivisionError =>
        rw [callScore_uncaught resp n1 false _ hcs (by tauto)] at h1
        exact Except.noConfusion h1
      case attributeError =>
        rw [callScore_uncaught resp n1 false _ hcs (by tauto)] at h1
        exact Except.noConfusion h1
      case unboundLocalError =>
        rw [callScore_uncaught resp n1 false _ hcs (by tauto)] at h1
        exact Except.noConfusion h1
      case jsonDecodeError =>
        rw [callScore_caught_scalar resp n1 _ hcs (by tauto)] at h1
        rw [callScore_caught_scalar resp n2 _ hcs (by tauto)] at h2
        have e1 := ScoreResult.scalar.inj (Except.ok.inj h1)
        have e2 := ScoreResult.scalar.inj (Except.ok.inj h2)
        rw [← e1, ← e2]
        norm_num
      case keyError =>
        rw [callScore_caught_scalar resp n1 _ hcs (by tauto)] at h1
        rw [callScore_caught_scalar resp n2 _ hcs (by tauto)] at h2
        have e1 := ScoreResult.scalar.inj (Except.ok.inj h1)
        have e2 := ScoreResult.scalar.inj (Except.ok.inj h2)
        rw [← e1, ← e2]
        norm_num
      case typeError =>
        rw [callScore_caught_scalar resp n1 _ hcs (by tauto)] at h1
        rw [callScore_caught_scalar resp n2 _ hcs (by tauto)] at h2
        have e1 := ScoreResult.scalar.inj (Except.ok.inj h1)
        have e2 := ScoreResult.scalar.inj (Except.ok.inj h2)
        rw [← e1, ← e2]
        norm_num
  · intro resp b n r hcs hna hnb h1
    rw [callScore_banded resp b n hcs] at h1
    have e1 := ScoreResult.scalar.inj (Except.ok.inj h1)
    rw [← e1]
    have hb5 := scoreCore_banded_cases resp b hcs
    have hcl : max 0 (min 1 b) = b := by
      rcases hb5 with h | h | h | h | h <;> subst h <;> norm_num [min_def, max_def]
    have hl := clamp01_sub_le (b + n) b
    rw [show max 0 (min 1 (b + n)) - max 0 (min 1 b)
          = max 0 (min 1 (b + n)) - b from by rw [hcl]] at hl
    have he : (b + n) - b = n := by ring
    rw [he] at hl
    have hn : |n| ≤ 0.02 := abs_le.mpr ⟨by linarith, hnb⟩
    linarith

/-- C7 amended witness at `env7` with noise draws 0.02 and −0.02. -/
theorem c7_amended_noise_bound_witness :
    |(0.17 : ℚ) - 0.13| ≤ 0.04 :=
  c7_amended_noise_bound.1 (.data env7) 0.02 (-0.02) 0.17 0.13
    (by norm_num) (by norm_num) (by norm_num) (by norm_num)
    (by with_unfolding_all rfl) (by with_unfolding_all rfl)

/-- C8 counterexample: on the structure-gated path with return_dict=True
the code returns the *five-component* `score_components` dict, not a
single-key reward mapping: on `env8` the keys are structure /
calculations / risk_assessment / decision_logic / consistency. -/
theorem c8_counter_gated_breakdown :
    callScore (.data env8) true 0 =
      .ok (.breakdown [("structure", 0.08), ("calculations", 0), ("risk_assessment", 0),
        ("decision_logic", 0), ("consistency", 0)]) ∧
    callScore (.data env8) false 0 = .ok (.scalar 0.08) ∧
    ([("structure", (0.08 : ℚ)), ("calculations", 0), ("risk_assessment", 0),
      ("decision_logic", 0), ("consistency", 0)].map Prod.fst ≠ ["reward"]) :=
  ⟨by with_unfolding_all rfl, by with_unfolding_all rfl, by decide⟩

/-- C8 amended: with return_dict=True the result is the single-key
mapping `reward` — matching the scalar of return_dict=False — on the
banded (success) path and on the caught-error (malformed) path; on the
structure-gated path it is instead the five-component dict, whose values
sum to the scalar result. -/
theorem c8_amended_return_dict_shape :
    (∀ (resp : RespInput) (noise b : ℚ),
      scoreCore resp = .ok (.banded b) →
      callScore resp true noise = .ok (.breakdown [("reward", max 0 (min 1 (b + noise)))]) ∧
      callScore resp false noise = .ok (.scalar (max 0 (min 1 (b + noise))))) ∧
    (∀ (resp : RespInput) (noise s : ℚ),
      scoreCore resp = .ok (.gated s) →
      callScore resp true noise = .ok (.breakdown (gatedComponents s)) ∧
      callScore resp false noise = .ok (.scalar (s * 0.2 + 0 + 0 + 0 + 0)) ∧
      ((gatedComponents s).map Prod.snd).sum = s * 0.2 + 0 + 0 + 0 + 0) ∧
    (∀ (resp : RespInput) (noise : ℚ) (e : PyErr),
      scoreCore resp = .error e →
      e = .jsonDecodeError ∨ e = .keyError ∨ e = .typeError →
      callScore resp true noise = .ok (.breakdown [("reward", 0)]) ∧
      callScore resp false noise = .ok (.scalar 0)) := by
  refine ⟨?_, ?_, ?_⟩
  · intro resp noise b hcs
    exact ⟨callScore_banded_dict resp b noise hcs, callScore_banded resp b noise hcs⟩
  · intro resp noise s hcs
    refine ⟨callScore_gated_dict resp s noise hcs, callScore_gated resp s noise hcs, ?_⟩
    simp [gatedComponents]
  · intro resp noise e hcs he
    exact ⟨callScore_caught_dict resp noise e hcs he, callScore_caught_scalar resp noise e hcs he⟩

/-- C8 amended witness: the gated clause applied to `env8`. -/
theorem c8_amended_return_dict_shape_witness :
    callScore (.data env8) true 3 = .ok (.breakdown (gatedComponents 0.4)) :=
  ((c8_amended_return_dict_shape.2.1 (.data env8) 3 0.4 (by with_unfolding_all rfl)).1)

/-- C9: Whenever all three agents report loan_amount 250000 and
monthly_income 8000 and each agent's recommendation uppercases to a
string containing "APPROV" (so it normalizes to APPROVED), and the
envelope's final decision is exactly "APPROVED", the consistency score is
exactly 1.0 (0.3 identical amounts + 0.3 identical incomes + 0.4
unanimous recommendations matching the final decision). -/
theorem c9_consistency_unanimous (n1 n2 n3 : String) (r1 r2 r3 : String)
    (hu1 : strContains r1.toUpper "APPROV" = true)
    (hu2 : strContains r2.toUpper "APPROV" = true)
    (hu3 : strContains r3.toUpper "APPROV" = true) :
    checkConsistency (.jobj [(n1, agent9 r1), (n2, agent9 r2), (n3, agent9 r3)])
      (.jstr "APPROVED") = .ok 1 := by
  have hfl : collectFloats "loan_amount" [(n1, agent9 r1), (n2, agent9 r2), (n3, agent9 r3)]
      = .ok [250000, 250000, 250000] := rfl
  have hmi : collectFloats "monthly_income" [(n1, agent9 r1), (n2, agent9 r2), (n3, agent9 r3)]
      = .ok [8000, 8000, 8000] := rfl
  have hc1 : pyContains (agent9 r1) "recommendation" = .ok true := rfl
  have hc2 : pyContains (agent9 r2) "recommendation" = .ok true := rfl
  have hc3 : pyContains (agent9 r3) "recommendation" = .ok true := rfl
  have hi1 : pyIndex (agent9 r1) "recommendation" = .ok (.jstr r1) := rfl
  have hi2 : pyIndex (agent9 r2) "recommendation" = .ok (.jstr r2) := rfl
  have hi3 : pyIndex (agent9 r3) "recommendation" = .ok (.jstr r3) := rfl
  have hup1 : pyUpper (.jstr r1) = .ok r1.toUpper := rfl
  have hup2 : pyUpper (.jstr r2) = .ok r2.toUpper := rfl
  have hup3 : pyUpper (.jstr r3) = .ok r3.toUpper := rfl
  have hrec : collectRecs [(n1, agent9 r1), (n2, agent9 r2), (n3, agent9 r3)]
      = .ok ["APPROVED", "APPROVED", "APPROVED"] := by
    simp only [collectRecs, hc1, hc2, hc3, hi1, hi2, hi3, hup1, hup2, hup3,
      hu1, hu2, hu3, okBind, pureBind, eq_self_iff_true, if_true]
    rfl
  have hit : pyItems (.jobj [(n1, agent9 r1), (n2, agent9 r2), (n3, agent9 r3)])
      = .ok [(n1, agent9 r1), (n2, agent9 r2), (n3, agent9 r3)] := rfl
  unfold checkConsistency checkConsistencyTotal
  simp only [hit, hfl, hmi, hrec, okBind, pureBind]
  norm_num [lenSetEqOne, lenSetGtOne, jvalEqStr, min_def, Except.map,
    List.all_cons, List.all_nil, beq_self_eq_true]
  with_unfolding_all rfl

/-- C9 witness: three concretely-cased approving recommendations. -/
theorem c9_consistency_unanimous_witness :
    checkConsistency (.jobj [("loan_officer", agent9 "APPROVED"),
      ("credit_analyst", agent9 "approve"), ("risk_manager", agent9 "Approved")])
      (.jstr "APPROVED") = .ok 1 :=
  c9_consistency_unanimous "loan_officer" "credit_analyst" "risk_manager"
    "APPROVED" "approve" "Approved"
    (by with_unfolding_all rfl) (by with_unfolding_all rfl) (by with_unfolding_all rfl)

/-- C10: The unanimous-recommendation bonus compares the final decision
case-sensitively: with three agents whose recommendations all normalize
to APPROVED (case-insensitively, via uppercasing and substring match),
any final decision other than the exact literal "APPROVED" earns a
consistency score of 0, while the exact literal earns the 0.4 bonus. -/
theorem c10_case_sensitive_final_decision :
    (∀ d : String, d ≠ "APPROVED" → checkConsistency agentsR (.jstr d) = .ok 0) ∧
    checkConsistency agentsR (.jstr "APPROVED") = .ok 0.4 := by
  constructor
  · intro d hd
    have hb : (d == "APPROVED") = false := beq_eq_false_iff_ne.mpr hd
    have hit : pyItems agentsR = .ok agentsRItems := rfl
    have hfl : collectFloats "loan_amount" agentsRItems = .ok [] := rfl
    have hmi : collectFloats "monthly_income" agentsRItems = .ok [] := rfl
    have hrec : collectRecs agentsRItems = .ok ["APPROVED", "APPROVED", "APPROVED"] := by
      with_unfolding_all rfl
    unfold checkConsistency checkConsistencyTotal
    simp only [hit, hfl, hmi, hrec, okBind, pureBind]
    norm_num [lenSetEqOne, lenSetGtOne, jvalEqStr, hb, min_def, Except.map,
      List.all_cons, List.all_nil, beq_self_eq_true]
    with_unfolding_all rfl
  · with_unfolding_all rfl

/-- C10 witness: a lowercase final decision "approved" forfeits the
bonus entirely. -/
theorem c10_case_sensitive_final_decision_witness :
    checkConsistency agentsR (.jstr "approved") = .ok 0 :=
  c10_case_sensitive_final_decision.1 "approved" (by decide)

end Loan
